import Mathlib

/-!
Shallow embedding of the UDD HTTP API's resource-to-relation mapping layer
(`uddlib.py`, `index.py`): the declarative resource catalog, the parametric
singleton constructor, `fetch_database`, `_fetch_linked`, `resolve_path`,
the cached computed fields of `Bug`, and the WSGI `application`'s filter
validation. Machine rows are lists of values; queries are evaluated against
an explicit in-memory database and every issued query is counted so that
"no query executes" and "at most one query" statements are provable.
-/

namespace Udd

/-- A database value: SQL integers, strings, or NULL / Python `None`. -/
inductive Val where
  | vInt (n : Int)
  | vStr (s : String)
  | vNone
deriving DecidableEq, Repr

/-- A table: its column names, in the physical column order, and its rows,
each a list of values positionally matching `cols`. -/
structure Table where
  cols : List String
  rows : List (List Val)
deriving DecidableEq, Repr

/-- The store: tables by name. -/
abbrev Database := List (String × Table)

/-- The errors the layer can raise. `unboundLocal` models Python's
`UnboundLocalError` (a name read before assignment), `sqlError` a query
rejected by the store (missing table or column), `assertionError` a failed
`assert`, `typeError` a client-side `TypeError` raised before any query
reaches the store. -/
inductive Err where
  | objectNotFound
  | resourceNotFound
  | corruptedDatabase
  | unboundLocal (name : String)
  | sqlError
  | assertionError
  | typeError
deriving DecidableEq, Repr

/-- The `_table` class attribute: a single table name or a tuple of them. -/
inductive TableDecl where
  | one (t : String)
  | many (ts : List String)
deriving DecidableEq, Repr

/-- A resource class: the declarative schema attributes of an `UddResource`
subclass (`_path`, `_table`, `_fields`, `_pk`, `_singleton`). -/
structure UddClass where
  path : String
  table : TableDecl
  fields : List String
  pkOpt : Option (List String)
  singleton : Bool
deriving DecidableEq, Repr

/-- The `pk` property: `self._pk or (self._fields[0],)`. -/
def UddClass.pkFields (c : UddClass) : List String :=
  match c.pkOpt with
  | some pk => pk
  | none => c.fields.take 1

/-! ## The resource catalog: each concrete subclass's schema attributes.
No subclass overrides `_singleton`, so every class carries the inherited
`True`. -/

def bugFields : List String :=
  ["id", "package", "source", "arrival", "status", "severity",
   "submitter", "owner", "done", "title", "last_modified", "forwarded",
   "affects_stable", "affects_testing", "affects_unstable",
   "affects_experimental", "submitter_name", "submitter_email", "owner_name",
   "owner_email", "done_name", "done_email", "affects_oldstable",
   "done_date"]

def bugClass : UddClass :=
  { path := "bugs", table := .many ["bugs", "archived_bugs"],
    fields := bugFields, pkOpt := some ["id"], singleton := true }

def developperClass : UddClass :=
  { path := "developers", table := .many ["carnivore_login"],
    fields := ["id", "login"], pkOpt := some ["id"], singleton := true }

def packageClass : UddClass :=
  { path := "packages", table := .one "packages",
    fields := ["package"], pkOpt := some ["package"], singleton := true }

def subPackageFields : List String :=
  ["package", "version", "architecture", "maintainer",
   "maintainer_name", "maintainer_email", "description",
   "long_description", "source", "source_version",
   "essential", "depends", "recommends", "suggests", "enhances",
   "pre_depends", "breaks", "installed_size", "homepage",
   "size", "build_essential", "origin", "sha1", "replaces",
   "section", "md5sum", "bugs", "priority", "tag", "task",
   "python_version", "provides", "conflicts", "sha256",
   "original_maintainer", "distribution", "release", "component",
   "ruby_versions"]

def subPackageClass : UddClass :=
  { path := "subpackages", table := .one "packages",
    fields := subPackageFields,
    pkOpt := some ["package", "version", "architecture", "distribution",
                   "release", "component"],
    singleton := true }

def popconFields : List String :=
  ["package", "insts", "vote", "olde", "recent", "nofiles"]

def popconClass : UddClass :=
  { path := "popcon", table := .one "popcon",
    fields := popconFields, pkOpt := none, singleton := true }

def popconSrcClass : UddClass :=
  { path := "popcon_src", table := .one "popcon_src",
    fields := popconFields, pkOpt := none, singleton := true }

def popconSrcAverageClass : UddClass :=
  { path := "popcon_src_average", table := .one "popcon_src_average",
    fields := popconFields, pkOpt := none, singleton := true }

def sourceFields : List String :=
  ["source", "version", "maintainer", "maintainer_name",
   "maintainer_email", "format", "files", "uploaders", "bin",
   "artchitecture", "standards_version", "homepage", "build_depends",
   "build_depends_indep", "build_conflicts", "build_conflicts_indep",
   "priority", "section", "distribution", "release", "componenet",
   "vcs_type", "vcs_url", "vcs_browser", "python_version",
   "checksums_sha1", "checksums_sha256", "original_maintainer",
   "dm_upload_allowed", "ruby_versions"]

def sourceClass : UddClass :=
  { path := "sources", table := .one "sources",
    fields := sourceFields,
    pkOpt := some ["source", "version", "distribution", "release"],
    singleton := true }

def uploaderFields : List String :=
  ["source", "version", "distribution", "release", "component",
   "uploader", "name", "email"]

def uploaderClass : UddClass :=
  { path := "uploaders", table := .many ["uploaders"],
    fields := uploaderFields, pkOpt := some uploaderFields, singleton := true }

/-- `UddResource.__subclasses__()`: only the direct subclasses of
`UddResource`, in definition order. `PopconSrc` and `PopconSrcAverage`
subclass `Popcon` and are absent. -/
def directSubclasses : List UddClass :=
  [bugClass, developperClass, packageClass, subPackageClass, popconClass,
   sourceClass, uploaderClass]

/-- `get_subclasses` of `index.py`: all subclasses, recursively — the direct
ones first, then each one's own subclasses in turn (only `Popcon` has any). -/
def allSubclasses : List UddClass :=
  directSubclasses ++ [popconSrcClass, popconSrcAverageClass]

/-- `UddResource.resolve_path`: scan `cls.__subclasses__()` for a matching
`_path`; raise `ResourceNotFound` when no direct subclass matches. -/
def resolve_path (path : String) : Except Err UddClass :=
  match directSubclasses.find? (fun c => c.path == path) with
  | some c => .ok c
  | none => .error .resourceNotFound

/-! ## The query layer.
A `SELECT` is evaluated against the in-memory store; referencing a table or
column absent from the store is the store rejecting the query (`sqlError`).
Every function that can issue queries also returns how many it issued, the
rejected ones included — `cursor.execute` has reached the store either way. -/

/-- The index of a column name in a column list (`None` when absent). -/
def colIdx : List String → String → Option Nat
  | [], _ => none
  | c :: cs, name => if c = name then some 0 else (colIdx cs name).map (· + 1)

/-- Whether a row satisfies an `AND`-combined equality condition list, the
condition columns resolved by name against the table's columns. -/
def rowMatches (t : Table) (conds : List (String × Val)) (row : List Val) : Bool :=
  conds.all fun kv =>
    match colIdx t.cols kv.1 with
    | some i => row.getD i .vNone == kv.2
    | none => false

/-- `SELECT * FROM tbl WHERE ⋀ conds`: every column of each matching row, in
the table's physical column order. -/
def execSelectAll (db : Database) (tbl : String) (conds : List (String × Val)) :
    Except Err (List (List Val)) :=
  match db.lookup tbl with
  | none => .error .sqlError
  | some t =>
      if conds.all (fun kv => t.cols.contains kv.1) then
        .ok (t.rows.filter (rowMatches t conds))
      else .error .sqlError

/-- `SELECT sel FROM tbl WHERE ⋀ conds`: the selected columns of each
matching row, projected in the order they are named. -/
def execSelectCols (db : Database) (tbl : String) (sel : List String)
    (conds : List (String × Val)) : Except Err (List (List Val)) :=
  match db.lookup tbl with
  | none => .error .sqlError
  | some t =>
      if sel.all t.cols.contains && conds.all (fun kv => t.cols.contains kv.1) then
        .ok ((t.rows.filter (rowMatches t conds)).map fun row =>
          sel.map fun c => row.getD ((colIdx t.cols c).getD 0) .vNone)
      else .error .sqlError

/-! ## Instances and `fetch_database`. -/

/-- A constructed resource instance in the query model: `_table` as set by
`data2object` (always a 1-tuple of the table the row came from), `_data` as
built by `dict(zip(cls._fields, data))`, and `_parameter` as set by
`__new__` from the primary-key fields. Reference identity is modelled
separately (see the registry below). -/
structure Inst where
  clsPath : String
  table : List String
  data : List (String × Val)
  parameter : List Val
deriving DecidableEq, Repr

/-- `data2object(cls, data, table)`: asserts the row's width matches the
declared field count, zips fields with the row into `_data`, and lets
`__new__` compute `_parameter` from the primary-key fields (a `KeyError`
cannot occur: every catalog class's pk fields are among its fields, so the
default here is never taken). -/
def data2object (cls : UddClass) (row : List Val) (table : List String) :
    Except Err Inst :=
  if cls.fields.length = row.length then
    .ok { clsPath := cls.path
          table := table
          data := cls.fields.zip row
          parameter := cls.pkFields.map fun f =>
            ((cls.fields.zip row).lookup f).getD .vNone }
  else .error .assertionError

/-- The `pk`-given, single-table branch of `fetch_database`:
`SELECT * FROM tbl WHERE cls._fields[0] = %s`, then `fetchone()` — the
`WHERE` names only the FIRST declared field, never the full primary key. -/
def fetchPkOne (cls : UddClass) (db : Database) (tbl : String) (pkv : Val) :
    Except Err Inst × Nat :=
  match execSelectAll db tbl [(cls.fields.headD "", pkv)] with
  | .error e => (.error e, 1)
  | .ok rows =>
      match rows.head? with
      | none => (.error .objectNotFound, 1)
      | some row => (data2object cls row [tbl], 1)

/-- The `pk`-given, multi-table loop of `fetch_database`: each table is tried
in declared order and only `ObjectNotFound` is caught; when every table
misses, control falls through to `return results` — but `results` is
assigned only in the `pk is None` branch, so Python raises
`UnboundLocalError` for the name `results`. -/
def fetchPkMulti (cls : UddClass) (db : Database) :
    List String → Val → Except Err Inst × Nat
  | [], _ => (.error (.unboundLocal "results"), 0)
  | t :: ts, pkv =>
      match fetchPkOne cls db t pkv with
      | (.error .objectNotFound, n) =>
          let (r, m) := fetchPkMulti cls db ts pkv
          (r, n + m)
      | (r, n) => (r, n)

/-- `cls.fetch_database(pk=pkv)`: dispatch on the class's `_table`. -/
def fetchByPk (cls : UddClass) (db : Database) (pkv : Val) :
    Except Err Inst × Nat :=
  match cls.table with
  | .many ts => fetchPkMulti cls db ts pkv
  | .one t => fetchPkOne cls db t pkv

/-- The row loop of the filter branch: each fetched row becomes an object in
order; a row of the wrong width raises out of the loop. -/
def rowsToObjects (cls : UddClass) (tbl : String) :
    List (List Val) → Except Err (List Inst)
  | [] => .ok []
  | row :: rest => do
      let i ← data2object cls row [tbl]
      let is ← rowsToObjects cls tbl rest
      pure (i :: is)

/-- The `pk`-omitted, single-table branch of `fetch_database`:
`SELECT * FROM tbl WHERE ⋀ (key = value)` over the caller's filters — the
filter keys are spliced into the `WHERE` clause with no validation here. -/
def fetchFilterOne (cls : UddClass) (db : Database) (tbl : String)
    (filters : List (String × Val)) : Except Err (List Inst) × Nat :=
  match execSelectAll db tbl filters with
  | .error e => (.error e, 1)
  | .ok rows => (rowsToObjects cls tbl rows, 1)

/-- The `pk`-omitted, multi-table loop: results of all tables concatenated,
`ObjectNotFound` from a table skipped (the filter branch never raises it),
any other error propagating. -/
def fetchFilterMulti (cls : UddClass) (db : Database)
    (filters : List (String × Val)) : List String → Except Err (List Inst) × Nat
  | [] => (.ok [], 0)
  | t :: ts =>
      match fetchFilterOne cls db t filters with
      | (.error .objectNotFound, n) =>
          let (r, m) := fetchFilterMulti cls db filters ts
          (r, n + m)
      | (.error e, n) => (.error e, n)
      | (.ok is, n) =>
          match fetchFilterMulti cls db filters ts with
          | (.ok rest, m) => (.ok (is ++ rest), n + m)
          | (.error e, m) => (.error e, n + m)

/-- A fetch returns one instance (`pk` given) or a list (`pk` omitted). -/
inductive FetchResult where
  | one (i : Inst)
  | many (is : List Inst)
deriving DecidableEq, Repr

/-- `UddResource.fetch_database(pk, **kwargs)` with the default field list:
dispatch on `pk` and on whether `_table` is a tuple. -/
def fetch_database (cls : UddClass) (db : Database) (pk : Option Val)
    (filters : List (String × Val)) : Except Err FetchResult × Nat :=
  match cls.table, pk with
  | .many ts, some pkv =>
      match fetchPkMulti cls db ts pkv with
      | (.ok i, n) => (.ok (.one i), n)
      | (.error e, n) => (.error e, n)
  | .many ts, none =>
      match fetchFilterMulti cls db filters ts with
      | (.ok is, n) => (.ok (.many is), n)
      | (.error e, n) => (.error e, n)
  | .one t, some pkv =>
      match fetchPkOne cls db t pkv with
      | (.ok i, n) => (.ok (.one i), n)
      | (.error e, n) => (.error e, n)
  | .one t, none =>
      match fetchFilterOne cls db t filters with
      | (.ok is, n) => (.ok (.many is), n)
      | (.error e, n) => (.error e, n)

/-! ## `_fetch_linked`: relation resolution through junction tables. -/

/-- The `field` argument of `_fetch_linked`: one column name or a tuple. -/
inductive FieldSel where
  | single (f : String)
  | tuple (fs : List String)
deriving DecidableEq, Repr

/-- The columns a selector names, in order. -/
def FieldSel.cols : FieldSel → List String
  | .single f => [f]
  | .tuple fs => fs

/-- One resolved element of a `_fetch_linked` result: a native scalar, a
native tuple, one resolved instance, or a list of resolved instances (the
`multiple_fields`-with-`classes` case). -/
inductive Linked where
  | nat1 (v : Val)
  | natN (vs : List Val)
  | res (i : Inst)
  | resN (is : List Inst)
deriving DecidableEq, Repr

/-- The `WHERE` columns and parameters of a `_fetch_linked` query:
`zip(self._pk, self._parameter)` with the excluded key fields dropped. -/
def pkConds (cls : UddClass) (self : Inst) (excl : List String) :
    List (String × Val) :=
  ((cls.pkOpt.getD []).zip self.parameter).filter fun kv => !excl.contains kv.1

/-- `[cls.fetch_database(pk=x) for x in data]`: the comprehension inside the
class loop when `field` is a tuple; the first failing fetch raises out. -/
def fetchAllPks (c : UddClass) (db : Database) :
    List Val → Except Err (List Inst) × Nat
  | [] => (.ok [], 0)
  | v :: vs =>
      match fetchByPk c db v with
      | (.ok i, n) =>
          match fetchAllPks c db vs with
          | (.ok is, m) => (.ok (i :: is), n + m)
          | (.error e, m) => (.error e, n + m)
      | (.error e, n) => (.error e, n)

/-- The `for cls in classes` loop resolving one junction row: each class's
fetch is tried with only `ObjectNotFound` caught — and with NO `break`, so a
LATER class's success overwrites an earlier one's; `obj` stays as it was when
a class raises `ObjectNotFound`; any other error escapes the loop. `none`
models `obj is None`. -/
def tryClasses (db : Database) (row : List Val) (multi : Bool)
    (acc : Option Linked) : List UddClass → Except Err (Option Linked) × Nat
  | [] => (.ok acc, 0)
  | c :: rest =>
      let attempt : Except Err Linked × Nat :=
        if multi then
          match fetchAllPks c db row with
          | (.ok is, n) => (.ok (.resN is), n)
          | (.error e, n) => (.error e, n)
        else
          match fetchByPk c db (row.headD .vNone) with
          | (.ok i, n) => (.ok (.res i), n)
          | (.error e, n) => (.error e, n)
      match attempt with
      | (.ok l, n) =>
          let (r, m) := tryClasses db row multi (some l) rest
          (r, n + m)
      | (.error .objectNotFound, n) =>
          let (r, m) := tryClasses db row multi acc rest
          (r, n + m)
      | (.error e, n) => (.error e, n)

/-- The row loop of `_fetch_linked`: native rows pass through; with
`classes`, a row none of the candidates resolves (`obj is None`) raises
`CorruptedDatabase`; other errors from the candidate loop propagate. -/
def resolveRows (db : Database) (field : FieldSel)
    (classes : Option (List UddClass)) :
    List (List Val) → Except Err (List Linked) × Nat
  | [] => (.ok [], 0)
  | row :: rest =>
      let (one, n) : Except Err (Option Linked) × Nat :=
        match classes with
        | none =>
            match field with
            | .single _ => (.ok (some (.nat1 (row.headD .vNone))), 0)
            | .tuple _ => (.ok (some (.natN row)), 0)
        | some cs => tryClasses db row (match field with
                       | .single _ => false
                       | .tuple _ => true) none cs
      match one with
      | .error e => (.error e, n)
      | .ok none => (.error .corruptedDatabase, n)
      | .ok (some l) =>
          match resolveRows db field classes rest with
          | (.ok ls, m) => (.ok (l :: ls), n + m)
          | (.error e, m) => (.error e, n + m)

/-- `_fetch_linked` against one base table name: one junction query
`SELECT field FROM base ++ relation WHERE pk-columns`, then the row loop. -/
def fetchLinkedOneTable (cls : UddClass) (self : Inst) (db : Database)
    (baseName : String) (relation : String) (field : FieldSel)
    (classes : Option (List UddClass)) (excl : List String) :
    Except Err (List Linked) × Nat :=
  match execSelectCols db (baseName ++ relation) field.cols
      (pkConds cls self excl) with
  | .error e => (.error e, 1)
  | .ok rows =>
      let (r, m) := resolveRows db field classes rows
      (r, 1 + m)

/-- The defaulted-base loop of `_fetch_linked`: base names
`tuple(x + "_" for x in self._table)`, each queried in turn and the results
concatenated; an error mid-loop propagates, discarding earlier results. The
recursive call passes no `exclude_from_pk`, so the default (empty) applies —
as it already did at the outer call, which is the only way here. -/
def fetchLinkedBases (cls : UddClass) (self : Inst) (db : Database)
    (relation : String) (field : FieldSel)
    (classes : Option (List UddClass)) :
    List String → Except Err (List Linked) × Nat
  | [] => (.ok [], 0)
  | b :: bs =>
      match fetchLinkedOneTable cls self db b relation field classes [] with
      | (.ok ls, n) =>
          match fetchLinkedBases cls self db relation field classes bs with
          | (.ok rest, m) => (.ok (ls ++ rest), n + m)
          | (.error e, m) => (.error e, n + m)
      | (.error e, n) => (.error e, n)

/-- `UddResource._fetch_linked(relation_name, field, classes,
base_table_name, exclude_from_pk)`: with no base override the owning
instance's `_table` entries each get `"_"` appended and are queried in turn;
with an override, that one base name is queried. -/
def fetch_linked (cls : UddClass) (self : Inst) (db : Database)
    (relation : String) (field : FieldSel) (classes : Option (List UddClass))
    (baseOverride : Option String) (excl : List String) :
    Except Err (List Linked) × Nat :=
  match baseOverride with
  | some b => fetchLinkedOneTable cls self db b relation field classes excl
  | none => fetchLinkedBases cls self db relation field classes
      (self.table.map fun t => t ++ "_")

/-! ## `Bug`: the archived flag and the cached computed fields. -/

/-- A live `Bug` object: the instance plus the computed-field cache slots the
claims exercise (`_blocks`, `_tags`, `_usertags`; each `None` until first
resolved). -/
structure BugState where
  inst : Inst
  blocksCache : Option (List Linked)
  tagsCache : Option (List Linked)
  usertagsCache : Option (List Linked)
deriving DecidableEq, Repr

/-- `Bug.archived`: `'bugs' not in self._table`. -/
def archived (s : BugState) : Bool := !s.inst.table.contains "bugs"

/-- `Bug.blocks`: on a cache miss, `_fetch_linked('blocks', 'blocked',
(Bug,))` resolves and fills `_blocks`; a hit returns the cache with no
query. Returns (value or error, the object afterwards, queries issued). -/
def blocksGet (db : Database) (s : BugState) :
    Except Err (List Linked) × BugState × Nat :=
  match s.blocksCache with
  | some v => (.ok v, s, 0)
  | none =>
      match fetch_linked bugClass s.inst db "blocks" (.single "blocked")
          (some [bugClass]) none [] with
      | (.ok v, n) => (.ok v, { s with blocksCache := some v }, n)
      | (.error e, n) => (.error e, s, n)

/-- `Bug.tags`: on a cache miss, `_fetch_linked('tags', 'tag')` (native
data) fills `_tags`. -/
def tagsGet (db : Database) (s : BugState) :
    Except Err (List Linked) × BugState × Nat :=
  match s.tagsCache with
  | some v => (.ok v, s, 0)
  | none =>
      match fetch_linked bugClass s.inst db "tags" (.single "tag")
          none none [] with
      | (.ok v, n) => (.ok v, { s with tagsCache := some v }, n)
      | (.error e, n) => (.error e, s, n)

/-- `Bug.usertags`: on a cache miss it fills `_usertags` — with `[]` when the
bug is archived (no query), else with the `usertags` junction rows — but the
method then executes `return self._tags`: whatever the TAGS cache holds
(Python `None` when tags were never accessed) is what the caller receives,
on the hit path too. -/
def usertagsGet (db : Database) (s : BugState) :
    Except Err (Option (List Linked)) × BugState × Nat :=
  match s.usertagsCache with
  | some _ => (.ok s.tagsCache, s, 0)
  | none =>
      if archived s then
        (.ok s.tagsCache, { s with usertagsCache := some [] }, 0)
      else
        match fetch_linked bugClass s.inst db "usertags"
            (.tuple ["email", "tag"]) none none [] with
        | (.ok v, n) => (.ok s.tagsCache, { s with usertagsCache := some v }, n)
        | (.error e, n) => (.error e, s, n)

/-! ## Reference identity: `__new__` (the parametric singleton) and
`__init__`. Instances are heap references (numbered allocations); the
registry `UddResource.__instances` maps `(class, primary-key tuple)` to the
one live reference. The catalog's classes have pairwise distinct `_path`
values, so the path stands in for the class object as the registry key. -/

/-- `tuple(kwargs[x] for x in pk)` of `__new__` (every catalog class's pk
fields are among its fields, so the default is never taken on real kwargs). -/
def pkTupleOf (cls : UddClass) (kwargs : List (String × Val)) : List Val :=
  cls.pkFields.map fun f => (kwargs.lookup f).getD .vNone

/-- The instance registry plus an allocation counter for fresh references. -/
structure Registry where
  next : Nat
  entries : List ((String × List Val) × Nat)
deriving DecidableEq, Repr

/-- `UddResource.__new__`: non-singleton classes always allocate; singleton
classes return the registered reference for the key, allocating and
registering one only when the key is new. -/
def newInstance (cls : UddClass) (kwargs : List (String × Val))
    (reg : Registry) : Nat × Registry :=
  let key := (cls.path, pkTupleOf cls kwargs)
  if !cls.singleton then
    (reg.next, { reg with next := reg.next + 1 })
  else
    match reg.entries.lookup key with
    | some ref => (ref, reg)
    | none =>
        (reg.next,
         { next := reg.next + 1, entries := (key, reg.next) :: reg.entries })

/-- What `__init__` stores on the object: `_table` (a class attribute until
an override is written) and `_data`. -/
structure Payload where
  tbl : TableDecl
  data : List (String × Val)
deriving DecidableEq, Repr

/-- The heap: the registry plus each live reference's current attributes. -/
structure Heap where
  reg : Registry
  payload : List (Nat × Payload)
deriving DecidableEq, Repr

/-- `cls(_table=tblOpt, **kwargs)`: `__new__` picks or creates the reference,
then `__init__` runs on it EVERY time — `_data` is overwritten, and `_table`
too whenever an override is given; with no override the reference keeps its
previous `_table` (the class attribute when it was never overridden). A
reused singleton reference thus has its attributes replaced in place. -/
def constructInstance (cls : UddClass) (tblOpt : Option TableDecl)
    (kwargs : List (String × Val)) (h : Heap) : Nat × Heap :=
  let nr := newInstance cls kwargs h.reg
  let tbl : TableDecl :=
    match tblOpt with
    | some t => t
    | none =>
        match h.payload.lookup nr.1 with
        | some p => p.tbl
        | none => cls.table
  (nr.1, { reg := nr.2
           payload := (nr.1, { tbl := tbl, data := kwargs }) ::
             h.payload.filter fun p => p.1 ≠ nr.1 })

/-- The registry invariant "at most one live instance per (class,
primary-key tuple)": no key is registered twice. -/
def Registry.keyUnique (r : Registry) : Prop :=
  (r.entries.map Prod.fst).Nodup

instance (r : Registry) : Decidable r.keyUnique := by
  unfold Registry.keyUnique; infer_instance

/-! ## `index.py`: `Package.fetch_database` and the `application` filter
branch. -/

/-- `SELECT DISTINCT(...)`: values deduplicated, first occurrence kept. -/
def distinctVals (l : List Val) : List Val :=
  l.foldl (fun acc v => if acc.contains v then acc else acc ++ [v]) []

/-- A `Package` built by `Package.__init__(package)`: only `_data` is set. -/
def mkPackageInst (v : Val) : Inst :=
  { clsPath := "packages", table := ["packages"], data := [("package", v)],
    parameter := [v] }

/-- `Package.fetch_database(pk=None, package=None)`: the query is
`SELECT DISTINCT(package) AS package FROM packages`, extended with
`WHERE package=%s` when `pk = pk or package` is set, and executed as
`cur.execute(query, (pk,))` EITHER WAY. With no key the query has no
placeholder but still receives the parameter tuple `(None,)`, so the driver
raises `TypeError` while interpolating, client-side, before anything
reaches the store (zero queries issued, the object-list branch
unreachable). With a key, the one query runs and `fetchone()` decides
between `ObjectNotFound` and `Package(package=pk)`. (Filtering the
deduplicated projection equals deduplicating the filtered rows for an
equality filter, so `fetchone()` is the head either way.) -/
def packageFetch (db : Database) (pk0 : Option Val) (package : Option Val) :
    Except Err FetchResult × Nat :=
  let pk := match pk0 with
    | some v => some v
    | none => package
  match pk with
  | none => (.error .typeError, 0)
  | some v =>
      match db.lookup "packages" with
      | none => (.error .sqlError, 1)
      | some t =>
          match colIdx t.cols "package" with
          | none => (.error .sqlError, 1)
          | some i =>
              let vals := distinctVals (t.rows.map fun r => r.getD i .vNone)
              match (vals.filter (· == v)).head? with
              | none => (.error .objectNotFound, 1)
              | some _ => (.ok (.one (mkPackageInst v)), 1)

/-- `Package._computed_fields = ('subpackages', 'tags')`. -/
def packageComputedFields : List String := ["subpackages", "tags"]

/-- `Package.subpackages`: an alias for `get_subpackages()`, which (with no
extra criteria, after its `assert 'package' not in kwargs`) runs
`SubPackage.fetch_database(package=self.name)`; `name` reads
`self._data['package']`. Unlike every other computed field this property
has NO `_x = None` cache slot: nothing is consulted before the delegated
fetch and nothing is stored after it, so EVERY access issues the query
afresh. -/
def subpackagesGet (db : Database) (self : Inst) :
    Except Err FetchResult × Nat :=
  fetch_database subPackageClass db none
    [("package", (self.data.lookup "package").getD .vNone)]

/-- The one-segment branch of `application` (`index.py`): resolve the path
(404 on `ResourceNotFound`), then `assert all([(x in cls._fields) for x in
filters])` — the filters are validated against the class's declared fields
BEFORE `cls.fetch_database(**filters)` is reached, so a bad key stops the
request with zero queries issued; `Package` dispatches to its own
`fetch_database` (its only field, hence only admissible filter key, is
`package`). -/
def applicationList (path : String) (filters : List (String × Val))
    (db : Database) : Except Err FetchResult × Nat :=
  match resolve_path path with
  | .error _ => (.error .resourceNotFound, 0)
  | .ok cls =>
      if filters.all (fun kv => cls.fields.contains kv.1) then
        if cls.path = "packages" then
          packageFetch db none ((filters.lookup "package"))
        else
          fetch_database cls db none filters
      else (.error .assertionError, 0)

/-- `__eq__` reads `self._data == other._data`: Python dict equality —
equal key sets and equal values, member order immaterial. Checking every
key of either operand against both lookups is exactly that. -/
def pyLookup (k : String) (d : List (String × Val)) : Option Val :=
  d.lookup k

/-- Python `==` on the two `_data` dicts. -/
def pyDictEq (d1 d2 : List (String × Val)) : Bool :=
  (d1.map Prod.fst ++ d2.map Prod.fst).all fun k => pyLookup k d1 == pyLookup k d2

/-- `UddResource.__eq__(self, other)`: compares only the two objects' raw
`_data` mappings; the class, `_table`, `_parameter` and every computed-field
cache slot are never read. -/
def uddEq (a b : Inst) : Bool := pyDictEq a.data b.data

/-! ## Concrete fixtures used by the evaluations below. -/

/-- A bug row: the id, every other column NULL (24 columns). -/
def mkBugRow (id : Int) : List Val := .vInt id :: List.replicate 23 .vNone

/-- A bug table holding one such row per id. -/
def bugsTable (ids : List Int) : Table :=
  { cols := bugFields, rows := ids.map mkBugRow }

/-- A `bugs_blocks`-shaped junction table of (id, blocked) pairs. -/
def blocksJunction (pairs : List (Int × Int)) : Table :=
  { cols := ["id", "blocked"], rows := pairs.map fun p => [.vInt p.1, .vInt p.2] }

/-- The instance `data2object` builds from `mkBugRow id` fetched out of
table `tbl`. -/
def bugInstF (id : Int) (tbl : String) : Inst :=
  { clsPath := "bugs", table := [tbl], data := bugFields.zip (mkBugRow id),
    parameter := [.vInt id] }

/-- A freshly fetched bug object: all computed-field caches unset. -/
def bugState0 (id : Int) (tbl : String) : BugState :=
  { inst := bugInstF id tbl, blocksCache := none, tagsCache := none,
    usertagsCache := none }

/-- A store whose active bug table is empty and whose archive holds bug 7. -/
def dbArchivedOnly : Database :=
  [("bugs", bugsTable []), ("archived_bugs", bugsTable [7])]

/-- A store where active bug 1's `bugs_blocks` row references id 999,
present in neither bug table. -/
def dbDangling : Database :=
  [("bugs", bugsTable [1]), ("archived_bugs", bugsTable []),
   ("bugs_blocks", blocksJunction [(1, 999)])]

/-- A healthy store: active bugs 1 and 2, bug 1 blocking bug 2. -/
def dbBlocks : Database :=
  [("bugs", bugsTable [1, 2]), ("archived_bugs", bugsTable []),
   ("bugs_blocks", blocksJunction [(1, 2)])]

/-- A source row: source and version set, the other 28 columns NULL. -/
def mkSourceRow (src ver : String) : List Val :=
  .vStr src :: .vStr ver :: List.replicate 28 .vNone

/-- Two versions of source "foo": distinct full primary keys, same first
field. -/
def dbSources : Database :=
  [("sources", { cols := sourceFields,
                 rows := [mkSourceRow "foo" "1", mkSourceRow "foo" "2"] })]

/-- The instance the pk fetch builds from the FIRST "foo" row: its
`_parameter` is the full 4-tuple (source, version, distribution, release). -/
def srcInstFoo1 : Inst :=
  { clsPath := "sources", table := ["sources"],
    data := sourceFields.zip (mkSourceRow "foo" "1"),
    parameter := [.vStr "foo", .vStr "1", .vNone, .vNone] }

/-- A heap with nothing allocated. -/
def emptyHeap : Heap := { reg := { next := 0, entries := [] }, payload := [] }

/-- The kwargs `data2object` passes for `mkBugRow id`. -/
def bugKw (id : Int) : List (String × Val) := bugFields.zip (mkBugRow id)

/-- A `packages` row in the shape `SubPackage` declares: the package name,
the other 38 columns NULL (39 columns). -/
def mkSubPackageRow (pkg : String) : List Val :=
  .vStr pkg :: List.replicate 38 .vNone

/-- A store whose `packages` table holds one vim subpackage row. -/
def dbPackages : Database :=
  [("packages", { cols := subPackageFields, rows := [mkSubPackageRow "vim"] })]

/-- The subpackage instance the delegated fetch builds for vim: the
composite-key `_parameter` takes `package` from the row and NULL for the
five remaining key fields. -/
def spVimInst : Inst :=
  { clsPath := "subpackages", table := ["packages"],
    data := subPackageFields.zip (mkSubPackageRow "vim"),
    parameter := [.vStr "vim", .vNone, .vNone, .vNone, .vNone, .vNone] }

/-! ## Helper lemmas. -/

theorem lookup_cons_self {α β : Type} [BEq α] [LawfulBEq α] (k : α) (b : β)
    (l : List (α × β)) : ((k, b) :: l).lookup k = some b := by
  simp [List.lookup]

theorem lookup_none_iff {α β : Type} [BEq α] [LawfulBEq α] (k : α)
    (l : List (α × β)) : l.lookup k = none ↔ k ∉ l.map Prod.fst := by
  induction l with
  | nil => simp [List.lookup]
  | cons p rest ih =>
      obtain ⟨a, b⟩ := p
      by_cases hk : k = a
      · subst hk
        simp [List.lookup]
      · have hne : (k == a) = false := by simp [hk]
        simp only [List.lookup, hne, List.map_cons, List.mem_cons]
        rw [ih]
        constructor
        · intro hn hor
          rcases hor with h1 | h2
          · exact hk h1
          · exact hn h2
        · intro hnot hmem
          exact hnot (Or.inr hmem)

/-- `__new__` on a singleton class whose key is already registered returns
the registered reference and leaves the registry unchanged. -/
theorem newInstance_eq_of_lookup (cls : UddClass) (kw : List (String × Val))
    (reg : Registry) (ref : Nat) (hs : cls.singleton = true)
    (hl : reg.entries.lookup (cls.path, pkTupleOf cls kw) = some ref) :
    newInstance cls kw reg = (ref, reg) := by
  unfold newInstance
  rw [hs]
  simp [hl]

/-- `__new__` on a singleton class leaves its own key registered to the
reference it returned. -/
theorem newInstance_lookup_self (cls : UddClass) (kw : List (String × Val))
    (reg : Registry) (hs : cls.singleton = true) :
    (newInstance cls kw reg).2.entries.lookup (cls.path, pkTupleOf cls kw)
      = some (newInstance cls kw reg).1 := by
  unfold newInstance
  rw [hs]
  simp only [Bool.not_true]
  cases hl : reg.entries.lookup (cls.path, pkTupleOf cls kw) with
  | some ref => simp [hl]
  | none => simp [hl, lookup_cons_self]

/-- Constructing twice with kwargs carrying the same primary-key tuple on a
singleton class returns the same reference. -/
theorem construct_twice_same_ref (cls : UddClass) (tb1 tb2 : Option TableDecl)
    (kw1 kw2 : List (String × Val)) (h : Heap) (hs : cls.singleton = true)
    (hpk : pkTupleOf cls kw1 = pkTupleOf cls kw2) :
    (constructInstance cls tb2 kw2 (constructInstance cls tb1 kw1 h).2).1
      = (constructInstance cls tb1 kw1 h).1 := by
  show (newInstance cls kw2 (newInstance cls kw1 h.reg).2).1
      = (newInstance cls kw1 h.reg).1
  have hl := newInstance_lookup_self cls kw1 h.reg hs
  rw [hpk] at hl
  rw [newInstance_eq_of_lookup cls kw2 (newInstance cls kw1 h.reg).2
    (newInstance cls kw1 h.reg).1 hs hl]

/-- `__new__` never registers a key twice: the registry's key-uniqueness is
preserved by every construction. -/
theorem newInstance_keyUnique (cls : UddClass) (kw : List (String × Val))
    (reg : Registry) (hu : reg.keyUnique) :
    (newInstance cls kw reg).2.keyUnique := by
  by_cases hs : cls.singleton = true
  · cases hl : reg.entries.lookup (cls.path, pkTupleOf cls kw) with
    | some ref =>
        rw [newInstance_eq_of_lookup cls kw reg ref hs hl]
        exact hu
    | none =>
        have hnew : newInstance cls kw reg
            = (reg.next,
               ⟨reg.next + 1,
                ((cls.path, pkTupleOf cls kw), reg.next) :: reg.entries⟩) := by
          unfold newInstance
          rw [hs]
          simp [hl]
        rw [hnew]
        simp only [Registry.keyUnique, List.map_cons, List.nodup_cons]
        exact ⟨(lookup_none_iff _ _).mp hl, hu⟩
  · have hs' : cls.singleton = false := by
      cases hsv : cls.singleton
      · rfl
      · exact absurd hsv hs
    have hnew : newInstance cls kw reg
        = (reg.next, { reg with next := reg.next + 1 }) := by
      unfold newInstance
      rw [hs']
      simp
    rw [hnew]
    exact hu

/-! ## The claims. -/

/-- C1. The claim: a multi-table pk fetch returns the first match in
declared table order and fails with `ObjectNotFound` iff the key is in no
table. The code: the first-match part holds (bug 7, absent from `bugs`,
comes back from `archived_bugs`), but when EVERY table misses, the loop
falls through to `return results` with `results` unassigned in this branch,
so the failure is `UnboundLocalError`, not `ObjectNotFound` — contradicting
the method's own docstring (":raises ObjectNotFound: if pk is given and no
objects have this primary key"). -/
theorem C1_pk_absent_everywhere_raises_unbound_local :
    fetchByPk bugClass dbArchivedOnly (.vInt 7)
      = (.ok (bugInstF 7 "archived_bugs"), 2) ∧
    fetchByPk bugClass dbArchivedOnly (.vInt 5)
      = (.error (.unboundLocal "results"), 2) ∧
    (fetchByPk bugClass dbArchivedOnly (.vInt 5)).1 ≠ .error .objectNotFound := by
  refine ⟨rfl, rfl, ?_⟩
  show (Except.error (Err.unboundLocal "results") : Except Err Inst)
    ≠ .error .objectNotFound
  simp

/-- C3. The claim: a junction row whose leading value no candidate class
resolves fails the relation fetch with `CorruptedDatabase`. The code: with
candidates `(Bug,)` — the only `classes` argument ever passed — a dangling
reference makes `Bug.fetch_database(pk=...)` raise `UnboundLocalError` (the
C1 slip), which the loop's `except ObjectNotFound` does not catch, so
`.blocks` dies with `UnboundLocalError` before the `obj is None` check that
would raise `CorruptedDatabase`. -/
theorem C3_dangling_link_escapes_as_unbound_local :
    fetchByPk bugClass dbDangling (.vInt 999)
      = (.error (.unboundLocal "results"), 2) ∧
    (blocksGet dbDangling (bugState0 1 "bugs")).1
      = .error (.unboundLocal "results") ∧
    (blocksGet dbDangling (bugState0 1 "bugs")).1
      ≠ .error .corruptedDatabase := by
  refine ⟨rfl, rfl, ?_⟩
  show (Except.error (Err.unboundLocal "results") : Except Err (List Linked))
    ≠ .error .corruptedDatabase
  simp

/-- C4. The claim: every registered type's declared path resolves to the
type, and only undeclared paths give `ResourceNotFound`. The code:
`resolve_path` scans `UddResource.__subclasses__()` — the DIRECT subclasses
only — while `index.py`'s directory listing registers subclasses
recursively, `PopconSrc` included. So `"popcon_src"`, the declared path of
the registered `PopconSrc`, resolves to `ResourceNotFound`, though its
parent's path `"popcon"` resolves fine. -/
theorem C4_popcon_src_path_unresolvable :
    popconSrcClass ∈ allSubclasses ∧
    popconSrcClass ∉ directSubclasses ∧
    popconSrcClass.path = "popcon_src" ∧
    resolve_path "popcon_src" = .error .resourceNotFound ∧
    resolve_path "popcon" = .ok popconClass := by
  refine ⟨by decide, by decide, rfl, rfl, rfl⟩

/-- C9. The claim: an archived bug's `usertags` resolves to an empty
sequence. The code: the archived branch computes and caches `[]` in
`_usertags`, but the method ends with `return self._tags` — the TAGS cache
— so the caller receives Python `None` when tags were never accessed, and
the tags' value (here `[nat1 "patch"]`) once they were: never the empty
sequence that was cached. -/
theorem C9_usertags_returns_tags_attribute :
    usertagsGet [] (bugState0 3 "archived_bugs")
      = (.ok none,
         { bugState0 3 "archived_bugs" with usertagsCache := some [] }, 0) ∧
    usertagsGet []
        { bugState0 3 "archived_bugs" with
            tagsCache := some [.nat1 (.vStr "patch")] }
      = (.ok (some [.nat1 (.vStr "patch")]),
         { bugState0 3 "archived_bugs" with
             tagsCache := some [.nat1 (.vStr "patch")]
             usertagsCache := some [] }, 0) := by
  exact ⟨rfl, rfl⟩

/-- C2. Every type is singleton-style (no subclass overrides
`_singleton = True`). Two constructions whose kwargs carry the same
primary-key tuple — as two successful fetches of the same primary key
produce — return the very same reference while the first is live (nothing
is ever evicted), and `__new__` keeps the registry holding at most one
reference per (class, primary-key tuple) key. -/
theorem C2_singleton_fetch_identity (cls : UddClass)
    (tb1 tb2 : Option TableDecl) (kw1 kw2 : List (String × Val)) (h : Heap)
    (hs : cls.singleton = true)
    (hpk : pkTupleOf cls kw1 = pkTupleOf cls kw2) :
    (constructInstance cls tb2 kw2 (constructInstance cls tb1 kw1 h).2).1
      = (constructInstance cls tb1 kw1 h).1 ∧
    (h.reg.keyUnique →
      (constructInstance cls tb2 kw2
        (constructInstance cls tb1 kw1 h).2).2.reg.keyUnique) := by
  constructor
  · exact construct_twice_same_ref cls tb1 tb2 kw1 kw2 h hs hpk
  · intro hu
    show (newInstance cls kw2 (newInstance cls kw1 h.reg).2).2.keyUnique
    exact newInstance_keyUnique cls kw2 _ (newInstance_keyUnique cls kw1 h.reg hu)

/-- C2 witness: fetching bug 7 twice (its `data2object` kwargs both times)
from an empty heap returns the same reference, and the registry stays
key-unique. -/
theorem C2_singleton_fetch_identity_witness :
    (constructInstance bugClass (some (.many ["archived_bugs"])) (bugKw 7)
        (constructInstance bugClass (some (.many ["archived_bugs"])) (bugKw 7)
          emptyHeap).2).1
      = (constructInstance bugClass (some (.many ["archived_bugs"])) (bugKw 7)
          emptyHeap).1 ∧
    (constructInstance bugClass (some (.many ["archived_bugs"])) (bugKw 7)
        (constructInstance bugClass (some (.many ["archived_bugs"])) (bugKw 7)
          emptyHeap).2).2.reg.keyUnique :=
  ⟨(C2_singleton_fetch_identity bugClass (some (.many ["archived_bugs"]))
      (some (.many ["archived_bugs"])) (bugKw 7) (bugKw 7) emptyHeap rfl rfl).1,
   (C2_singleton_fetch_identity bugClass (some (.many ["archived_bugs"]))
      (some (.many ["archived_bugs"])) (bugKw 7) (bugKw 7) emptyHeap rfl rfl).2
     (by decide)⟩

/-- C8 counterexample. The claim calls Bug a non-singleton type whose
fetches from different backing tables coexist as distinct instances, each
keeping its table. In the code `Bug` inherits `_singleton = True`, so
constructing bug 1 as fetched from `bugs` and then as fetched from
`archived_bugs` yields the SAME reference (allocation 0), whose `_table`
attribute afterwards reads `('archived_bugs',)`: one shared instance,
mutated to the latest table, not two instances retaining their own. -/
theorem C8_counterexample_shared_instance :
    bugClass.singleton = true ∧
    (constructInstance bugClass (some (.many ["archived_bugs"])) (bugKw 1)
        (constructInstance bugClass (some (.many ["bugs"])) (bugKw 1)
          emptyHeap).2).1
      = (constructInstance bugClass (some (.many ["bugs"])) (bugKw 1)
          emptyHeap).1 ∧
    (constructInstance bugClass (some (.many ["archived_bugs"])) (bugKw 1)
        (constructInstance bugClass (some (.many ["bugs"])) (bugKw 1)
          emptyHeap).2).2.payload.lookup
        (constructInstance bugClass (some (.many ["bugs"])) (bugKw 1)
          emptyHeap).1
      = some { tbl := .many ["archived_bugs"], data := bugKw 1 } := by
  refine ⟨rfl, rfl, rfl⟩

/-- C8 as amended: `Bug` sets no `_singleton` override, so it is
singleton-style; re-fetching the same primary-key value from another
backing table reuses the one live reference, whose `__init__` then
overwrites `_data` and `_table` with the newest fetch's — the latest table
wins. (The non-singleton path of `__new__`, which would allocate distinct
instances, is exercised by no declared type.) -/
theorem C8_singleton_reuse_table_overwrite (kw : List (String × Val))
    (t1 t2 : TableDecl) (h : Heap) :
    bugClass.singleton = true ∧
    ((constructInstance bugClass (some t2) kw
        (constructInstance bugClass (some t1) kw h).2).1
      = (constructInstance bugClass (some t1) kw h).1) ∧
    ((constructInstance bugClass (some t2) kw
        (constructInstance bugClass (some t1) kw h).2).2.payload.lookup
        (constructInstance bugClass (some t1) kw h).1
      = some { tbl := t2, data := kw }) := by
  have hr := construct_twice_same_ref bugClass (some t1) (some t2) kw kw h rfl rfl
  refine ⟨rfl, hr, ?_⟩
  show ((constructInstance bugClass (some t2) kw
      (constructInstance bugClass (some t1) kw h).2).2.payload).lookup
      (constructInstance bugClass (some t1) kw h).1 = _
  rw [← hr]
  show ((((constructInstance bugClass (some t1) kw h).2.payload.filter _)).cons
      _).lookup _ = _
  exact lookup_cons_self _ _ _

/-- C5. A filter-based fetch (no primary key) enters through
`application`'s one-segment branch, whose
`assert all([(x in cls._fields) for x in filters])` runs before
`cls.fetch_database(**filters)` is ever called: with any filter key outside
the resolved class's declared fields the request dies on `AssertionError`
with the query counter still at zero — no query was constructed or issued,
even partially. -/
theorem C5_bad_filter_key_rejected_before_query (path : String)
    (filters : List (String × Val)) (db : Database) (cls : UddClass)
    (hres : resolve_path path = .ok cls)
    (hbad : ∃ kv ∈ filters, kv.1 ∉ cls.fields) :
    applicationList path filters db = (.error .assertionError, 0) := by
  obtain ⟨kv, hmem, hnot⟩ := hbad
  have hall : filters.all (fun kv => cls.fields.contains kv.1) = false := by
    rw [Bool.eq_false_iff]
    intro hcontra
    rw [List.all_eq_true] at hcontra
    exact hnot (by simpa using hcontra kv hmem)
  simp only [applicationList, hres]
  rw [hall]
  simp

/-- C5 witness: a `popcon` request filtered on the undeclared key `bogus`
fails with `AssertionError` and zero queries issued. -/
theorem C5_bad_filter_key_rejected_before_query_witness :
    applicationList "popcon" [("bogus", .vStr "x")] dbBlocks
      = (.error .assertionError, 0) :=
  C5_bad_filter_key_rejected_before_query "popcon" [("bogus", .vStr "x")]
    dbBlocks popconClass rfl ⟨("bogus", .vStr "x"), by decide, by decide⟩

/-- `Bug.blocks`, the representative of the `_x = None`-guarded cache
pattern: when one access returns a value, the value sits in the write-once
`_blocks` slot, and a second access on the resulting object returns exactly
the cached value, changes nothing, and issues zero queries. -/
theorem blocksGet_second_access_cached (db : Database)
    (s s1 : BugState) (v : List Linked) (n : Nat)
    (h1 : blocksGet db s = (.ok v, s1, n)) :
    blocksGet db s1 = (.ok v, s1, 0) := by
  unfold blocksGet at h1 ⊢
  cases hc : s.blocksCache with
  | some c =>
      rw [hc] at h1
      simp only [Prod.mk.injEq, Except.ok.injEq] at h1
      obtain ⟨h1a, h1b, h1c⟩ := h1
      subst h1a
      subst h1b
      simp [hc]
  | none =>
      rw [hc] at h1
      cases hf : (fetch_linked bugClass s.inst db "blocks" (.single "blocked")
          (some [bugClass]) none []) with
      | mk r m =>
          rw [hf] at h1
          cases r with
          | error e => simp at h1
          | ok w =>
              simp only [Prod.mk.injEq, Except.ok.injEq] at h1
              obtain ⟨h1a, h1b, h1c⟩ := h1
              subst h1a
              subst h1b
              simp

/-- Every `Package.subpackages` access issues exactly one query whatever
the store holds: the delegated single-table filter fetch always executes
its one `SELECT`, and no cache exists that could short-circuit it. -/
theorem subpackagesGet_always_queries (db : Database) (self : Inst) :
    (subpackagesGet db self).2 = 1 := by
  have ht : subPackageClass.table = .one "packages" := rfl
  cases hsel : execSelectAll db "packages"
      [("package", (self.data.lookup "package").getD .vNone)] with
  | error e =>
      simp only [subpackagesGet, fetch_database, ht, fetchFilterOne, hsel]
  | ok rows =>
      simp only [subpackagesGet, fetch_database, ht, fetchFilterOne, hsel]
      cases rowsToObjects subPackageClass "packages" rows with
      | error e => rfl
      | ok is => rfl

/-- C6 counterexample. The claim quantifies over every computed field, but
`Package.subpackages` — declared in `Package._computed_fields` — has no
cache slot at all: accessing it on the vim package issues its one query,
and accessing it twice on the very same instance issues that query twice
(nothing was stored, nothing consulted), against the claimed at-most-one
query and write-once cache. -/
theorem C6_counterexample_subpackages_uncached :
    "subpackages" ∈ packageComputedFields ∧
    (subpackagesGet dbPackages (mkPackageInst (.vStr "vim"))).1
      = .ok (.many [spVimInst]) ∧
    (subpackagesGet dbPackages (mkPackageInst (.vStr "vim"))).2 = 1 ∧
    (subpackagesGet dbPackages (mkPackageInst (.vStr "vim"))).2
        + (subpackagesGet dbPackages (mkPackageInst (.vStr "vim"))).2 = 2 := by
  refine ⟨by decide, rfl, rfl, rfl⟩

/-- C6 as amended: every computed field implemented with a cache slot —
all of them except `Package.subpackages` — behaves as claimed, shown on
`Bug.blocks`, the cited accessor: whenever one access returns a value, the
second access on the resulting object returns exactly the cached value
with zero queries, so two accesses trigger at most the first access's one
relation query. `Package.subpackages` alone has no cache and issues
exactly one fresh query on EVERY access, whatever the store or instance. -/
theorem C6_cached_fields_write_once_except_subpackages (db : Database)
    (s s1 : BugState) (v : List Linked) (n : Nat)
    (h1 : blocksGet db s = (.ok v, s1, n)) :
    blocksGet db s1 = (.ok v, s1, 0) ∧
    ∀ (db2 : Database) (p : Inst), (subpackagesGet db2 p).2 = 1 :=
  ⟨blocksGet_second_access_cached db s s1 v n h1,
   fun db2 p => subpackagesGet_always_queries db2 p⟩

/-- C6 witness: on the healthy store, the first `blocks` access on freshly
fetched bug 1 resolves bug 2 (2 queries); the second access on the
resulting object returns the same value with 0 queries — while every
`subpackages` access everywhere still issues its one query. -/
theorem C6_cached_fields_write_once_except_subpackages_witness :
    blocksGet dbBlocks
        { bugState0 1 "bugs" with
            blocksCache := some [.res (bugInstF 2 "bugs")] }
      = (.ok [.res (bugInstF 2 "bugs")],
         { bugState0 1 "bugs" with
             blocksCache := some [.res (bugInstF 2 "bugs")] }, 0) ∧
    ∀ (db2 : Database) (p : Inst), (subpackagesGet db2 p).2 = 1 :=
  C6_cached_fields_write_once_except_subpackages dbBlocks (bugState0 1 "bugs")
    { bugState0 1 "bugs" with blocksCache := some [.res (bugInstF 2 "bugs")] }
    [.res (bugInstF 2 "bugs")] 2 rfl

/-- C7 counterexample. The claim: a pk fetch matches exactly one row on the
FULL primary key, and the returned instance's primary-key tuple equals the
given pk, composite keys included. The code builds
`WHERE cls._fields[0] = %s` — the first declared field only. With two
versions of source "foo" on file (distinct full primary keys), the issued
lookup matches BOTH rows, `fetchone()` silently takes the first, and the
returned instance's primary-key tuple is the 4-tuple
(source, version, distribution, release) of that row — not the given pk. -/
theorem C7_composite_pk_counterexample :
    execSelectAll dbSources "sources" [("source", .vStr "foo")]
      = .ok [mkSourceRow "foo" "1", mkSourceRow "foo" "2"] ∧
    mkSourceRow "foo" "1" ≠ mkSourceRow "foo" "2" ∧
    (fetchPkOne sourceClass dbSources "sources" (.vStr "foo")).1
      = .ok srcInstFoo1 ∧
    srcInstFoo1.parameter ≠ [.vStr "foo"] := by
  refine ⟨rfl, by decide, rfl, by decide⟩

/-- C7 as amended: under the stable-column-order assumption (the table's
columns are the class's declared fields) and for a class whose first
primary-key field is its first declared field — true of every catalog
class — a successful pk fetch returns the object built from the FIRST row
whose FIRST declared field equals pk; accordingly the instance's FIRST
primary-key component equals pk. For single-field-key types this is a full
primary-key lookup; for composite-key types only the first component is
constrained. -/
theorem C7_pk_lookup_uses_first_field (cls : UddClass) (db : Database)
    (tbl : String) (t : Table) (pkv : Val) (inst : Inst) (n : Nat)
    (htbl : db.lookup tbl = some t)
    (hcols : t.cols = cls.fields)
    (hpk0 : cls.pkFields.head? = cls.fields.head?)
    (hne : cls.fields ≠ [])
    (hok : fetchPkOne cls db tbl pkv = (.ok inst, n)) :
    ∃ row,
      (t.rows.filter (rowMatches t [(cls.fields.headD "", pkv)])).head?
        = some row ∧
      data2object cls row [tbl] = .ok inst ∧
      inst.parameter.head? = some pkv := by
  obtain ⟨f0, fs, hf⟩ : ∃ f0 fs, cls.fields = f0 :: fs := by
    cases hcf : cls.fields with
    | nil => exact absurd hcf hne
    | cons a as => exact ⟨a, as, rfl⟩
  have hcontains : colIdx t.cols f0 = some 0 := by
    rw [hcols, hf]
    simp [colIdx]
  have hcond : ([(cls.fields.headD "", pkv)].all
      fun kv => t.cols.contains kv.1) = true := by
    rw [hcols, hf]
    simp
  have hsel : execSelectAll db tbl [(cls.fields.headD "", pkv)]
      = .ok (t.rows.filter (rowMatches t [(cls.fields.headD "", pkv)])) := by
    unfold execSelectAll
    simp only [htbl, hcond]
    simp
  cases hh : (t.rows.filter (rowMatches t [(cls.fields.headD "", pkv)])).head?
      with
  | none =>
      simp only [fetchPkOne, hsel, hh] at hok
      simp at hok
  | some row =>
      simp only [fetchPkOne, hsel, hh, Prod.mk.injEq] at hok
      obtain ⟨hdo, hn⟩ := hok
      refine ⟨row, rfl, hdo, ?_⟩
      have hmemf : row ∈ t.rows.filter
          (rowMatches t [(cls.fields.headD "", pkv)]) := by
        cases hfl : t.rows.filter (rowMatches t [(cls.fields.headD "", pkv)])
            with
        | nil =>
            rw [hfl] at hh
            simp at hh
        | cons a as =>
            rw [hfl] at hh
            simp only [List.head?_cons, Option.some.injEq] at hh
            rw [← hh]
            exact List.mem_cons_self a as
      have hpred : rowMatches t [(cls.fields.headD "", pkv)] row = true :=
        List.of_mem_filter hmemf
      rw [hf] at hpred
      simp only [rowMatches, List.headD_cons, List.all_cons, List.all_nil,
        Bool.and_true, hcontains] at hpred
      have hr0 : row.getD 0 .vNone = pkv := beq_iff_eq.mp hpred
      by_cases hlen : cls.fields.length = row.length
      · simp only [data2object, if_pos hlen, Except.ok.injEq] at hdo
        have hparam : inst.parameter = cls.pkFields.map fun f =>
            ((cls.fields.zip row).lookup f).getD .vNone := by
          rw [← hdo]
        rw [hparam]
        cases row with
        | nil =>
            rw [hf] at hlen
            simp at hlen
        | cons r0 rs =>
            cases hpkf : cls.pkFields with
            | nil =>
                rw [hpkf, hf] at hpk0
                simp at hpk0
            | cons p0 ps =>
                rw [hpkf, hf] at hpk0
                simp only [List.head?_cons, Option.some.injEq] at hpk0
                simp only [List.map_cons, List.head?_cons, Option.some.injEq]
                rw [hpk0, hf]
                simp only [List.zip_cons_cons, lookup_cons_self,
                  Option.getD_some]
                simpa using hr0
      · simp [data2object, hlen] at hdo

/-- C7 witness: fetching bug 1 by pk on the healthy store satisfies every
hypothesis (single-field key: `_pk = ('id',)`, `id` the first field), and
the conclusion holds at the first matching row. -/
theorem C7_pk_lookup_uses_first_field_witness :
    ∃ row,
      ((bugsTable [1, 2]).rows.filter
          (rowMatches (bugsTable [1, 2])
            [(bugClass.fields.headD "", .vInt 1)])).head? = some row ∧
      data2object bugClass row ["bugs"] = .ok (bugInstF 1 "bugs") ∧
      (bugInstF 1 "bugs").parameter.head? = some (.vInt 1) :=
  C7_pk_lookup_uses_first_field bugClass dbBlocks "bugs" (bugsTable [1, 2])
    (.vInt 1) (bugInstF 1 "bugs") 1 rfl rfl rfl (by decide) rfl

/-- A key absent from a dict's key set looks up to `None`. -/
theorem pyLookup_none_iff (k : String) (d : List (String × Val)) :
    pyLookup k d = none ↔ k ∉ d.map Prod.fst :=
  lookup_none_iff k d

/-- C10. `__eq__` is Python `==` on the two `_data` dicts and nothing else:
it holds exactly when the raw field-value mappings agree on every key
(membership order immaterial), and reads neither the class, nor `_table` or
`_parameter`, nor any computed-field cache slot (those live outside
`Inst.data` altogether) — so a `Popcon`-typed instance and a
`Package`-typed one carrying the same one-field data compare equal. -/
theorem C10_eq_compares_only_data :
    (∀ a b : Inst,
      uddEq a b = true ↔ ∀ k, pyLookup k a.data = pyLookup k b.data) ∧
    uddEq { clsPath := "popcon", table := ["popcon"],
            data := [("package", .vStr "vim")], parameter := [.vStr "vim"] }
        (mkPackageInst (.vStr "vim")) = true := by
  constructor
  · intro a b
    unfold uddEq pyDictEq
    rw [List.all_eq_true]
    constructor
    · intro hall k
      by_cases hk : k ∈ a.data.map Prod.fst ++ b.data.map Prod.fst
      · exact beq_iff_eq.mp (by simpa using hall k hk)
      · rw [List.mem_append] at hk
        push_neg at hk
        rw [(pyLookup_none_iff k a.data).mpr hk.1,
          (pyLookup_none_iff k b.data).mpr hk.2]
    · intro hk x hx
      rw [hk x]
      simp
  · decide

end Udd
